import Mathlib

set_option maxHeartbeats 1000000

/-!
Verification development for the governance-and-orchestration engine of the
B2B automation backend (admission control, model routing, worker pipelines).

The definitions below are a shallow embedding of the Python sources:

  * `src/backend/app/services/budget.py`  (BudgetEnforcer, estimate_cost)
  * `src/backend/app/services/router.py`  (ModelRouter)
  * `src/backend/app/workers/support_triage.py`
  * `src/backend/app/workers/lead_qualify.py`

Modelling conventions:

  * Wall-clock time (`time.time()`) is a rational number passed explicitly.
  * The Redis hash `circuit:{tenant}` is modelled as `CircuitHash`: each field
    is `Option`-valued; the key exists iff some field is set.  `expire` calls
    are cleanup-only (the spec notes expiry never causes a false negative
    inside a bucket window) and are not modelled.
  * Python exceptions are modelled with `Except`; redis counter reads are the
    natural numbers the code itself writes via `incr`/`incrby`.
  * Python floats are modelled by exact rationals; `round(x, 6)` is modelled
    by round-half-to-even at six decimal places (Python's rounding mode).
-/

/-- Typed violations raised by the budget layer: `CircuitOpenError` and
`BudgetExceededError(limit_type)` from `budget.py`.  The human-readable
`reason` strings are not modelled. -/
inductive Violation where
  | circuitOpen : Violation
  | budgetExceeded (limit_type : String) : Violation
deriving DecidableEq, Repr

/-- The redis hash stored at `circuit:{tenant}`: fields `state`, `failures`,
`opened_at`, each possibly absent.  The redis key exists iff at least one
field is present (`hgetall` returns an empty mapping otherwise). -/
structure CircuitHash where
  state : Option String
  failures : Option Nat
  openedAt : Option ℚ
deriving DecidableEq, Repr

/-- A deleted / never-written circuit key: `hgetall` returns no data. -/
def CircuitHash.clear : CircuitHash := ⟨none, none, none⟩

/-- Whether the redis circuit key exists (has at least one field). -/
def CircuitHash.keyExists (c : CircuitHash) : Bool :=
  c.state.isSome || c.failures.isSome || c.openedAt.isSome

/-- Derived circuit-breaker state as the code reads it:
`data.get("state", "closed")`, with a missing key also reading as closed. -/
def CircuitHash.readState (c : CircuitHash) : String :=
  if c.keyExists then c.state.getD "closed" else "closed"

/-- Per-tenant quota profile held by `BudgetEnforcer.__init__`. -/
structure BudgetEnforcer where
  max_runs_per_day : Nat
  max_tokens_per_day : Nat
  max_items_per_minute : Nat
deriving DecidableEq, Repr

/-- Circuit-breaker failure threshold (`BudgetEnforcer.FAILURE_THRESHOLD`). -/
def FAILURE_THRESHOLD : Nat := 5

/-- Circuit-breaker cooldown in seconds (`BudgetEnforcer.CIRCUIT_TIMEOUT`). -/
def CIRCUIT_TIMEOUT : ℚ := 300

/-- Shared counter state read by the checks: the circuit hash plus the three
redis counters (per-minute items, per-day runs, per-day tokens) for the
current time buckets. -/
structure BudgetState where
  circuit : CircuitHash
  count_this_minute : Nat
  count_runs_today : Nat
  count_tokens_today : Nat
deriving DecidableEq, Repr

/-- Model of `BudgetEnforcer.check_circuit_breaker` at wall-clock time `now`.
Returns the outcome together with the (possibly updated) circuit hash, since
the open-to-half-open transition is a side effect of the check itself. -/
def check_circuit_breaker (now : ℚ) (c : CircuitHash) :
    Except Violation Unit × CircuitHash :=
  if c.keyExists = false then (Except.ok (), c)
  else
    let state := c.state.getD "closed"
    if state = "open" then
      let opened_at := c.openedAt.getD 0
      if now - opened_at > CIRCUIT_TIMEOUT then
        (Except.ok (), { c with state := some "half-open" })
      else
        (Except.error Violation.circuitOpen, c)
    else (Except.ok (), c)

/-- Model of `BudgetEnforcer.record_failure` at time `now`: `hincrby` the
`failures` field (creating it at 0 if absent), then open the circuit once the
threshold is reached. -/
def record_failure (now : ℚ) (c : CircuitHash) : CircuitHash :=
  let failures := c.failures.getD 0 + 1
  let c1 : CircuitHash := { c with failures := some failures }
  if failures ≥ FAILURE_THRESHOLD then
    { c1 with state := some "open", openedAt := some now }
  else c1

/-- Model of `BudgetEnforcer.record_success`: the code deletes the whole
circuit key. -/
def record_success (_c : CircuitHash) : CircuitHash := CircuitHash.clear

/-- Model of `BudgetEnforcer.check_rate_limit`: deny iff the per-minute
counter is at or above `max_items_per_minute`. -/
def check_rate_limit (b : BudgetEnforcer) (count_this_minute : Nat) :
    Except Violation Unit :=
  if count_this_minute ≥ b.max_items_per_minute then
    Except.error (Violation.budgetExceeded "rate_limit")
  else Except.ok ()

/-- Model of `BudgetEnforcer.check_daily_runs`: deny iff today's run counter
is at or above `max_runs_per_day`. -/
def check_daily_runs (b : BudgetEnforcer) (count_today : Nat) :
    Except Violation Unit :=
  if count_today ≥ b.max_runs_per_day then
    Except.error (Violation.budgetExceeded "daily_runs")
  else Except.ok ()

/-- Model of `BudgetEnforcer.check_daily_tokens`: deny iff today's token
counter plus the estimate strictly exceeds `max_tokens_per_day`. -/
def check_daily_tokens (b : BudgetEnforcer) (estimated_tokens : Nat)
    (count_today : Nat) : Except Violation Unit :=
  if count_today + estimated_tokens > b.max_tokens_per_day then
    Except.error (Violation.budgetExceeded "daily_tokens")
  else Except.ok ()

/-- Model of `BudgetEnforcer.check_all`: circuit breaker, then rate limit,
then daily runs, then daily tokens; the first failure is raised.  The circuit
side effect (open to half-open) persists even when a later check raises. -/
def check_all (b : BudgetEnforcer) (now : ℚ) (estimated_tokens : Nat)
    (s : BudgetState) : Except Violation Unit × BudgetState :=
  let step1 := check_circuit_breaker now s.circuit
  let s1 : BudgetState := { s with circuit := step1.2 }
  match step1.1 with
  | Except.error e => (Except.error e, s1)
  | Except.ok _ =>
    match check_rate_limit b s.count_this_minute with
    | Except.error e => (Except.error e, s1)
    | Except.ok _ =>
      match check_daily_runs b s.count_runs_today with
      | Except.error e => (Except.error e, s1)
      | Except.ok _ =>
        (check_daily_tokens b estimated_tokens s.count_tokens_today, s1)

/-- The condition under which the circuit check blocks a request: the key
exists, the stored state reads `open`, and the cooldown has not yet strictly
elapsed. -/
def circuitBlocks (now : ℚ) (c : CircuitHash) : Prop :=
  c.keyExists = true ∧ c.state.getD "closed" = "open" ∧
    now - c.openedAt.getD 0 ≤ CIRCUIT_TIMEOUT

instance (now : ℚ) (c : CircuitHash) : Decidable (circuitBlocks now c) := by
  unfold circuitBlocks; infer_instance

/-- The outcome component of the circuit check is an error exactly under
`circuitBlocks`. -/
lemma check_circuit_breaker_fst (now : ℚ) (c : CircuitHash) :
    (check_circuit_breaker now c).1 =
      if circuitBlocks now c then Except.error Violation.circuitOpen
      else Except.ok () := by
  unfold check_circuit_breaker circuitBlocks
  by_cases h1 : c.keyExists = false
  · simp [h1]
  · by_cases h2 : c.state.getD "closed" = "open"
    · by_cases h3 : now - c.openedAt.getD 0 > CIRCUIT_TIMEOUT
      · have h4 : ¬(now - c.openedAt.getD 0 ≤ CIRCUIT_TIMEOUT) := not_le.mpr h3
        simp [h1, h2, h3, h4]
      · have h4 : now - c.openedAt.getD 0 ≤ CIRCUIT_TIMEOUT := not_lt.mp h3
        simp [h1, h2, h3, h4]
    · simp [h1, h2]

/-- Python's `round` at six decimal places on exact rationals
(round half to even, the float rounding mode). -/
def pyRound6 (q : ℚ) : ℚ :=
  let scaled : ℚ := q * 1000000
  let f : ℤ := ⌊scaled⌋
  let n : ℤ :=
    if scaled - f < 1 / 2 then f
    else if scaled - f > 1 / 2 then f + 1
    else if 2 ∣ f then f else f + 1
  (n : ℚ) / 1000000

/-- Static per-1M-token price table from `estimate_cost` in `budget.py`:
`(input_rate, output_rate)` per model id. -/
def pricing (model : String) : Option (ℚ × ℚ) :=
  if model = "local_7b" then some (0, 0)
  else if model = "claude-sonnet-4-20250514" then some (3, 15)
  else if model = "claude-haiku-4-5-20251001" then some (4 / 5, 4)
  else none

/-- Model of `estimate_cost(input_tokens, output_tokens, model)`: unknown
model ids fall back to the sonnet entry (`pricing.get(model, pricing[...])`),
then `round((i * in_rate + o * out_rate) / 1_000_000, 6)`. -/
def estimate_cost (input_tokens output_tokens : Nat) (model : String) : ℚ :=
  let rates := (pricing model).getD (3, 15)
  pyRound6 ((input_tokens * rates.1 + output_tokens * rates.2) / 1000000)

/-- C1: for every quota profile, counter state, time and token estimate,
`check_all` evaluates circuit breaker, per-minute rate, daily runs, daily
tokens in that order with first-failure-wins; the rate check denies iff
`count_this_minute >= max_items_per_minute`, the run check denies iff
`count_today >= max_runs_per_day`, the token check denies iff
`count_today + estimated_tokens > max_tokens_per_day` (strict); and the three
limit kinds are pairwise distinct and distinct from the circuit-open
violation. -/
theorem c1_check_all_order (b : BudgetEnforcer) (now : ℚ)
    (estimated_tokens : Nat) (s : BudgetState) :
    (check_all b now estimated_tokens s).1 =
      (if circuitBlocks now s.circuit then
        Except.error Violation.circuitOpen
      else if s.count_this_minute ≥ b.max_items_per_minute then
        Except.error (Violation.budgetExceeded "rate_limit")
      else if s.count_runs_today ≥ b.max_runs_per_day then
        Except.error (Violation.budgetExceeded "daily_runs")
      else if s.count_tokens_today + estimated_tokens > b.max_tokens_per_day then
        Except.error (Violation.budgetExceeded "daily_tokens")
      else Except.ok ()) ∧
    (∀ k : String, Violation.budgetExceeded k ≠ Violation.circuitOpen) ∧
    "rate_limit" ≠ "daily_runs" ∧ "rate_limit" ≠ "daily_tokens" ∧
    "daily_runs" ≠ "daily_tokens" := by
  refine ⟨?_, ?_, ?_, ?_, ?_⟩
  · rcases s with ⟨c, m, r, t⟩
    by_cases hc : circuitBlocks now c
    · have h1 : (check_circuit_breaker now c).1 = Except.error Violation.circuitOpen := by
        rw [check_circuit_breaker_fst]; simp [hc]
      simp [check_all, h1, hc]
    · have h1 : (check_circuit_breaker now c).1 = Except.ok () := by
        rw [check_circuit_breaker_fst]; simp [hc]
      simp only [check_all, h1, hc, check_rate_limit, check_daily_runs,
        check_daily_tokens, if_neg hc]
      split_ifs <;> simp_all
  · intro k h; cases h
  · decide
  · decide
  · decide

/-- An open circuit that was opened at time 0, with the failure counter at the
threshold (the exact hash `record_failure` writes when it opens the circuit). -/
def circuitOpenAt0 : CircuitHash := ⟨some "open", some 5, some 0⟩

/-- A half-open circuit (the hash left behind by the open-to-half-open
transition of a check). -/
def circuitHalfOpen5 : CircuitHash := ⟨some "half-open", some 5, some 0⟩

/-- C2 counterexample: the claim fails on the code in two places.  First, a
check performed exactly 300 seconds after `opened_at` (at least 300 but not
more) still raises `CircuitOpenError`: the code requires strictly more than
`CIRCUIT_TIMEOUT` seconds.  Second, while half-open the code does not limit
admission to exactly one request: two successive checks before any
`record_success`/`record_failure` both pass, each leaving the state
half-open. -/
theorem c2_counterexample :
    (check_circuit_breaker 300 circuitOpenAt0).1 =
        Except.error Violation.circuitOpen ∧
    check_circuit_breaker 400 circuitHalfOpen5 =
        (Except.ok (), circuitHalfOpen5) ∧
    check_circuit_breaker 401 circuitHalfOpen5 =
        (Except.ok (), circuitHalfOpen5) := by
  refine ⟨?_, ?_, ?_⟩ <;>
    simp [check_circuit_breaker, circuitOpenAt0, circuitHalfOpen5,
      CircuitHash.keyExists, CIRCUIT_TIMEOUT]

/-- C2 (amended): circuit-breaker lifecycle as the code implements it.
Five `record_failure` calls from a clear state open the circuit (failure
counter 5); a check strictly more than 300 seconds after `opened_at`
transitions open to half-open as a side effect of the check, while a check at
or before 300 seconds raises `CircuitOpenError` and leaves the hash
unchanged; while half-open every check (not just the first) passes and leaves
the state half-open, until `record_failure` re-opens the circuit when the
threshold is still met, or `record_success` deletes the circuit hash, fully
resetting failure count and state to closed. -/
theorem c2_circuit_lifecycle :
    (∀ ts : List ℚ, ts.length = 5 →
      (ts.foldl (fun c t => record_failure t c) CircuitHash.clear).state =
          some "open" ∧
      (ts.foldl (fun c t => record_failure t c) CircuitHash.clear).failures =
          some 5) ∧
    (∀ (now t : ℚ) (c : CircuitHash), c.state = some "open" →
      c.openedAt = some t →
      (now - t > CIRCUIT_TIMEOUT →
        check_circuit_breaker now c =
          (Except.ok (), { c with state := some "half-open" })) ∧
      (now - t ≤ CIRCUIT_TIMEOUT →
        check_circuit_breaker now c = (Except.error Violation.circuitOpen, c))) ∧
    (∀ (now : ℚ) (c : CircuitHash), c.state = some "half-open" →
      check_circuit_breaker now c = (Except.ok (), c)) ∧
    (∀ (now : ℚ) (c : CircuitHash) (f : Nat), c.state = some "half-open" →
      c.failures = some f → FAILURE_THRESHOLD ≤ f + 1 →
      (record_failure now c).state = some "open" ∧
      (record_failure now c).failures = some (f + 1)) ∧
    (∀ c : CircuitHash, record_success c = CircuitHash.clear ∧
      CircuitHash.readState CircuitHash.clear = "closed" ∧
      CircuitHash.clear.failures = none) := by
  refine ⟨?_, ?_, ?_, ?_, ?_⟩
  · intro ts h
    rcases ts with _ | ⟨a, _ | ⟨b, _ | ⟨c, _ | ⟨d, _ | ⟨e, rest⟩⟩⟩⟩⟩ <;>
      simp_all [record_failure, CircuitHash.clear, FAILURE_THRESHOLD]
  · intro now t c hs ho
    have hk : c.keyExists = true := by simp [CircuitHash.keyExists, hs]
    constructor <;> intro h
    · simp [check_circuit_breaker, hk, hs, ho, h]
    · have h4 : ¬(now - t > CIRCUIT_TIMEOUT) := not_lt.mpr h
      simp [check_circuit_breaker, hk, hs, ho, h4]
  · intro now c hs
    have hk : c.keyExists = true := by simp [CircuitHash.keyExists, hs]
    simp [check_circuit_breaker, hk, hs]
  · intro now c f hs hf hthr
    simp [record_failure, hf, hthr]
  · intro c
    exact ⟨rfl, rfl, rfl⟩

/-- Witness instantiating `c2_circuit_lifecycle` on concrete data. -/
theorem c2_circuit_lifecycle_witness :
    (([10, 20, 30, 40, 50] : List ℚ).foldl (fun c t => record_failure t c)
        CircuitHash.clear).state = some "open" ∧
    check_circuit_breaker 400 circuitOpenAt0 = (Except.ok (), circuitHalfOpen5) ∧
    check_circuit_breaker 250 circuitOpenAt0 =
        (Except.error Violation.circuitOpen, circuitOpenAt0) ∧
    check_circuit_breaker 350 circuitHalfOpen5 = (Except.ok (), circuitHalfOpen5) ∧
    (record_failure 500 circuitHalfOpen5).state = some "open" ∧
    record_success circuitHalfOpen5 = CircuitHash.clear := by
  refine ⟨(c2_circuit_lifecycle.1 [10, 20, 30, 40, 50] (by simp)).1,
    ?_, ?_,
    c2_circuit_lifecycle.2.2.1 350 circuitHalfOpen5 rfl,
    (c2_circuit_lifecycle.2.2.2.1 500 circuitHalfOpen5 5 rfl rfl
      (by norm_num [FAILURE_THRESHOLD])).1,
    (c2_circuit_lifecycle.2.2.2.2 circuitHalfOpen5).1⟩
  · exact (c2_circuit_lifecycle.2.1 400 0 circuitOpenAt0 rfl rfl).1
      (by norm_num [CIRCUIT_TIMEOUT])
  · exact (c2_circuit_lifecycle.2.1 250 0 circuitOpenAt0 rfl rfl).2
      (by norm_num [CIRCUIT_TIMEOUT])

/-- A circuit hash whose derived state reads closed (no `state` field ever
set) but which carries three recorded failures. -/
def circuitClosed3 : CircuitHash := ⟨none, some 3, none⟩

/-- C9 counterexample: with the circuit in the closed state but three
failures accumulated, `record_success` is not a no-op: it deletes the hash,
losing the accumulated failure count. -/
theorem c9_counterexample :
    CircuitHash.readState circuitClosed3 = "closed" ∧
    circuitClosed3.failures = some 3 ∧
    record_success circuitClosed3 ≠ circuitClosed3 ∧
    (record_success circuitClosed3).failures = none := by
  refine ⟨rfl, rfl, ?_, rfl⟩
  intro h
  have := congrArg CircuitHash.failures h
  simp [record_success, CircuitHash.clear, circuitClosed3] at this

/-- C9 (amended): `record_success` always deletes the circuit hash, so in the
closed state it leaves the derived state closed but resets any accumulated
failure count to nothing; it is a literal no-op only when the circuit hash is
already clear. -/
theorem c9_record_success_clears (c : CircuitHash) :
    record_success c = CircuitHash.clear ∧
    CircuitHash.readState (record_success c) = "closed" ∧
    (record_success c).failures = none ∧
    (c = CircuitHash.clear → record_success c = c) := by
  exact ⟨rfl, rfl, rfl, fun h => by subst h; rfl⟩

/-- Witness instantiating `c9_record_success_clears` at the clear hash. -/
theorem c9_record_success_clears_witness :
    record_success CircuitHash.clear = CircuitHash.clear :=
  (c9_record_success_clears CircuitHash.clear).2.2.2 rfl

/-- C5: `estimate_cost` equals rounded linear pricing against the static
table for every input; it is `0` for the local model on all inputs; unknown
model ids fall back to the default cloud model's pricing; and the concrete
example evaluates to `0.0105 = 21/2000` USD.  Determinism is immediate:
`estimate_cost` is a pure function of its three arguments. -/
theorem c5_estimate_cost_linear :
    (∀ (i o : Nat) (m : String),
      estimate_cost i o m =
        pyRound6 ((i * ((pricing m).getD (3, 15)).1 +
          o * ((pricing m).getD (3, 15)).2) / 1000000)) ∧
    (∀ i o : Nat, estimate_cost i o "local_7b" = 0) ∧
    (∀ (i o : Nat) (m : String), pricing m = none →
      estimate_cost i o m = estimate_cost i o "claude-sonnet-4-20250514") ∧
    estimate_cost 1000 500 "claude-sonnet-4-20250514" = 21 / 2000 ∧
    (21 : ℚ) / 2000 = 0.0105 := by
  refine ⟨fun i o m => rfl, ?_, ?_, ?_, by norm_num⟩
  · intro i o
    simp [estimate_cost, pricing, pyRound6]
  · intro i o m h
    have hs : pricing "claude-sonnet-4-20250514" = some (3, 15) := rfl
    simp [estimate_cost, h, hs]
  · have e1 : estimate_cost 1000 500 "claude-sonnet-4-20250514" =
        pyRound6 ((10500 : ℚ) / 1000000) := by
      simp [estimate_cost, pricing]
      norm_num
    rw [e1]
    unfold pyRound6
    norm_num

/-- Witness instantiating `c5_estimate_cost_linear`: a model id outside the
price table is priced exactly like the default cloud model. -/
theorem c5_estimate_cost_linear_witness :
    estimate_cost 1000 500 "gpt-4o" =
      estimate_cost 1000 500 "claude-sonnet-4-20250514" :=
  c5_estimate_cost_linear.2.2.1 1000 500 "gpt-4o" (by rfl)

/-- Witness instantiating `c1_check_all_order`: at the rate limit with five
items already this minute, the rate check is the first to fail. -/
theorem c1_check_all_order_witness :
    (check_all ⟨100, 50000, 5⟩ 0 0 ⟨CircuitHash.clear, 5, 0, 0⟩).1 =
      Except.error (Violation.budgetExceeded "rate_limit") := by
  rw [(c1_check_all_order ⟨100, 50000, 5⟩ 0 0 ⟨CircuitHash.clear, 5, 0, 0⟩).1]
  simp [circuitBlocks, CircuitHash.clear, CircuitHash.keyExists]

/-!
Model of `src/backend/app/services/router.py` (`ModelRouter`).

The two inference backends are external collaborators: a `RouterEnv` records
the outcome each backend would produce for the call under consideration
(`Except` error = the Python exception raised by the HTTP/SDK call).  Prompt
strings only enter the token estimate through their word count, so the
estimate takes the word count directly; `int(words * 1.3)` on floats agrees
with `13 * words / 10` in exact arithmetic for the magnitudes involved.
Prompt-template loading from disk (`load_prompt_template`) is filesystem I/O
outside the model; `route` here covers the `template_id=None` path the
workers use (they pass fully formatted prompts).  `duration` fields
(wall-clock) are not modelled.
-/

/-- Uniform result dict returned by router calls (`content`, `model`,
`tokens`, `cost`, plus claude's split token counts when present). -/
structure CallResult where
  content : String
  model : String
  tokens : Nat
  cost : ℚ
  input_tokens : Option Nat
  output_tokens : Option Nat
deriving DecidableEq, Repr

/-- Errors that can escape router calls: `ValueError` for a missing API key,
a budget `Violation` from the enforcer, or a re-raised backend exception. -/
inductive RouterErr where
  | valueError : RouterErr
  | violation (v : Violation) : RouterErr
  | backend (msg : String) : RouterErr
deriving DecidableEq, Repr

/-- Response of a successful local llama.cpp call. -/
structure LocalResp where
  content : String
  tokens_predicted : Nat
deriving DecidableEq, Repr

/-- Response of a successful Anthropic API call. -/
structure CloudResp where
  content : String
  input_tokens : Nat
  output_tokens : Nat
deriving DecidableEq, Repr

/-- External-world outcomes for one routed call: the
`settings.local_model_enabled` flag and what each backend would return. -/
structure RouterEnv where
  local_model_enabled : Bool
  localOutcome : Except String LocalResp
  cloudOutcome : Except String CloudResp
deriving Repr

/-- The `ModelRouter` instance state: the resolved Anthropic key (tenant BYOK
over platform key, or none) and the optional budget enforcer. -/
structure ModelRouter where
  anthropic_key : Option String
  budget : Option BudgetEnforcer
deriving DecidableEq, Repr

/-- Tasks routed to the local model (`ModelRouter.LOCAL_TASKS`). -/
def LOCAL_TASKS : List String := ["classify", "extract", "summarize", "spam_check"]

/-- Tasks routed to Claude (`ModelRouter.CLAUDE_TASKS`). -/
def CLAUDE_TASKS : List String :=
  ["draft_reply", "qualify_lead", "generate_questions", "complex_reasoning"]

/-- Rough input-token estimate `int(len(prompt.split()) * 1.3)` from
`call_claude`, in exact arithmetic over the word count. -/
def estimated_input (prompt_words : Nat) : Nat := 13 * prompt_words / 10

/-- Model of `ModelRouter.call_claude`: raise `ValueError` without a key;
check the daily token budget against estimated input plus `max_tokens`; on
API success add consumed tokens and record a circuit success; on API failure
record a circuit failure and re-raise. -/
def call_claude (rt : ModelRouter) (env : RouterEnv) (now : ℚ)
    (prompt_words : Nat) (model : String) (max_tokens : Nat)
    (s : BudgetState) : Except RouterErr CallResult × BudgetState :=
  match rt.anthropic_key with
  | none => (Except.error RouterErr.valueError, s)
  | some _ =>
    let est := estimated_input prompt_words + max_tokens
    let tokCheck : Except Violation Unit :=
      match rt.budget with
      | some b => check_daily_tokens b est s.count_tokens_today
      | none => Except.ok ()
    match tokCheck with
    | Except.error v => (Except.error (RouterErr.violation v), s)
    | Except.ok _ =>
      match env.cloudOutcome with
      | Except.ok resp =>
        let s1 : BudgetState :=
          if rt.budget.isSome then
            { s with
              count_tokens_today :=
                s.count_tokens_today + (resp.input_tokens + resp.output_tokens),
              circuit := record_success s.circuit }
          else s
        (Except.ok
          { content := resp.content, model := model,
            tokens := resp.input_tokens + resp.output_tokens,
            cost := estimate_cost resp.input_tokens resp.output_tokens model,
            input_tokens := some resp.input_tokens,
            output_tokens := some resp.output_tokens }, s1)
      | Except.error msg =>
        let s1 : BudgetState :=
          if rt.budget.isSome then
            { s with circuit := record_failure now s.circuit }
          else s
        (Except.error (RouterErr.backend msg), s1)

/-- JSON text of the static safe-default payload in
`_local_model_fallback`. -/
def default_payload_content : String :=
  "\x7b\"category\": \"general\", \"priority\": \"medium\", \"sentiment\": \"neutral\", \"suggested_team\": \"general\", \"needs_human\": true, \"confidence\": 0.0\x7d"

/-- The static default result returned when no model is available. -/
def default_payload : CallResult :=
  { content := default_payload_content, model := "fallback_default",
    tokens := 0, cost := 0, input_tokens := none, output_tokens := none }

/-- Model of `ModelRouter._local_model_fallback`: with a resolvable key,
degrade to a haiku call capped at 256 output tokens; without one, return the
static default payload. -/
def local_model_fallback (rt : ModelRouter) (env : RouterEnv) (now : ℚ)
    (prompt_words : Nat) (s : BudgetState) :
    Except RouterErr CallResult × BudgetState :=
  if rt.anthropic_key.isSome then
    call_claude rt env now prompt_words "claude-haiku-4-5-20251001" 256 s
  else (Except.ok default_payload, s)

/-- Model of `ModelRouter.call_local_model`: when the local backend is
administratively disabled, or its call raises, fall back; on success add the
reported token count to the daily counter and return a zero-cost result. -/
def call_local_model (rt : ModelRouter) (env : RouterEnv) (now : ℚ)
    (prompt_words : Nat) (s : BudgetState) :
    Except RouterErr CallResult × BudgetState :=
  if env.local_model_enabled = false then
    local_model_fallback rt env now prompt_words s
  else
    match env.localOutcome with
    | Except.ok resp =>
      let s1 : BudgetState :=
        if rt.budget.isSome then
          { s with count_tokens_today := s.count_tokens_today + resp.tokens_predicted }
        else s
      (Except.ok
        { content := resp.content, model := "local_7b",
          tokens := resp.tokens_predicted, cost := 0,
          input_tokens := none, output_tokens := none }, s1)
    | Except.error _ => local_model_fallback rt env now prompt_words s

/-- Model of `ModelRouter.route` on the `template_id=None` path: run
`check_all(estimated_tokens=max_tokens)` when a budget enforcer is attached,
then dispatch LOCAL tasks to the local model and everything else (CLAUDE
tasks and unknown task types) to Claude with the default sonnet model. -/
def route (rt : ModelRouter) (env : RouterEnv) (now : ℚ) (prompt_words : Nat)
    (task_type : String) (max_tokens : Nat) (s : BudgetState) :
    Except RouterErr CallResult × BudgetState :=
  let adm : Except Violation Unit × BudgetState :=
    match rt.budget with
    | some b => check_all b now max_tokens s
    | none => (Except.ok (), s)
  match adm.1 with
  | Except.error v => (Except.error (RouterErr.violation v), adm.2)
  | Except.ok _ =>
    if task_type ∈ LOCAL_TASKS then
      call_local_model rt env now prompt_words adm.2
    else
      call_claude rt env now prompt_words "claude-sonnet-4-20250514" max_tokens adm.2

/-- Generous quota profile used in concrete router scenarios. -/
def generousLimits : BudgetEnforcer := ⟨100, 50000, 10⟩

/-- Router with a resolvable Anthropic key and an attached budget enforcer. -/
def rtWithKey : ModelRouter := ⟨some "k", some generousLimits⟩

/-- Environment where the local backend is enabled but its call raises, and
the cloud backend call raises as well. -/
def envLocalFailCloudFail : RouterEnv :=
  ⟨true, Except.error "timeout", Except.error "api_error"⟩

/-- Fresh counter state: clear circuit, all counters at zero. -/
def freshState : BudgetState := ⟨CircuitHash.clear, 0, 0, 0⟩

/-- C3 counterexample: for the LOCAL task `classify` with a resolvable cloud
credential, a local-backend failure whose cloud fallback also fails does not
return a result - the routed call re-raises the cloud error.  The claim that
the routed call for a LOCAL task always returns a result is false. -/
theorem c3_counterexample :
    "classify" ∈ LOCAL_TASKS ∧
    (route rtWithKey envLocalFailCloudFail 0 10 "classify" 1024 freshState).1 =
      Except.error (RouterErr.backend "api_error") := by
  refine ⟨by simp [LOCAL_TASKS], ?_⟩
  norm_num [route, check_all, check_circuit_breaker, check_rate_limit,
    check_daily_runs, check_daily_tokens, call_local_model,
    local_model_fallback, call_claude, estimated_input, rtWithKey,
    envLocalFailCloudFail, freshState, generousLimits, CircuitHash.clear,
    CircuitHash.keyExists, LOCAL_TASKS]

/-- C3 (amended): a failure (or administrative disablement) of the local
backend triggers the fallback chain: with no resolvable cloud credential the
static default payload is returned instead of raising, and with a credential
the call degrades to a reduced-budget haiku call capped at 256 output tokens;
a successful local call always returns a result.  The routed LOCAL call
therefore returns a result in every case except when a credential exists and
the fallback cloud call itself fails, in which case that error propagates. -/
theorem c3_local_fallback_chain (rt : ModelRouter) (env : RouterEnv) (now : ℚ)
    (w : Nat) (task : String) (s : BudgetState) :
    (rt.anthropic_key = none →
      (env.local_model_enabled = false ∨ (∃ e, env.localOutcome = Except.error e)) →
      call_local_model rt env now w s = (Except.ok default_payload, s)) ∧
    ((∃ e, env.localOutcome = Except.error e) → env.local_model_enabled = true →
      call_local_model rt env now w s = local_model_fallback rt env now w s) ∧
    (∀ k, rt.anthropic_key = some k →
      local_model_fallback rt env now w s =
        call_claude rt env now w "claude-haiku-4-5-20251001" 256 s) ∧
    (∀ resp, env.local_model_enabled = true → env.localOutcome = Except.ok resp →
      ∃ r, (call_local_model rt env now w s).1 = Except.ok r ∧
        r.model = "local_7b") ∧
    (∀ b mt, rt.budget = some b → task ∈ LOCAL_TASKS →
      (check_all b now mt s).1 = Except.ok () →
      route rt env now w task mt s =
        call_local_model rt env now w (check_all b now mt s).2) := by
  refine ⟨?_, ?_, ?_, ?_, ?_⟩
  · intro hk h
    rcases h with h | ⟨e, he⟩
    · simp [call_local_model, h, local_model_fallback, hk]
    · by_cases hen : env.local_model_enabled = false
      · simp [call_local_model, hen, local_model_fallback, hk]
      · simp [call_local_model, hen, he, local_model_fallback, hk]
  · rintro ⟨e, he⟩ hen
    simp [call_local_model, hen, he]
  · intro k hk
    simp [local_model_fallback, hk]
  · intro resp hen hres
    simp [call_local_model, hen, hres]
  · intro b mt hb htask hchk
    simp [route, hb, hchk, htask]

/-- Witness instantiating `c3_local_fallback_chain` on concrete scenarios:
without a key the static default payload is returned on local failure, and
with a key the fallback equals the reduced-budget haiku call. -/
theorem c3_local_fallback_chain_witness :
    call_local_model ⟨none, none⟩ ⟨true, Except.error "boom", Except.error "x"⟩
        0 5 freshState = (Except.ok default_payload, freshState) ∧
    local_model_fallback rtWithKey envLocalFailCloudFail 0 5 freshState =
      call_claude rtWithKey envLocalFailCloudFail 0 5
        "claude-haiku-4-5-20251001" 256 freshState :=
  ⟨(c3_local_fallback_chain ⟨none, none⟩
      ⟨true, Except.error "boom", Except.error "x"⟩ 0 5 "classify"
      freshState).1 rfl (Or.inr ⟨"boom", rfl⟩),
   (c3_local_fallback_chain rtWithKey envLocalFailCloudFail 0 5 "classify"
      freshState).2.2.1 "k" rfl⟩

/-- C4 counterexample: a LOCAL-path call (local backend fails, credential
present, cloud fallback fails) records a circuit-breaker failure: the
circuit hash changes from clear to one failure.  The claim that the LOCAL
fallback path leaves circuit-breaker state unchanged is false. -/
theorem c4_counterexample :
    freshState.circuit = CircuitHash.clear ∧
    (call_local_model rtWithKey envLocalFailCloudFail 0 10 freshState).2.circuit =
      (⟨none, some 1, none⟩ : CircuitHash) ∧
    (call_local_model rtWithKey envLocalFailCloudFail 0 10 freshState).2.circuit ≠
      freshState.circuit := by
  have h2 : (call_local_model rtWithKey envLocalFailCloudFail 0 10
      freshState).2.circuit = (⟨none, some 1, none⟩ : CircuitHash) := by
    norm_num [call_local_model, local_model_fallback, call_claude,
      check_daily_tokens, estimated_input, record_failure, FAILURE_THRESHOLD,
      rtWithKey, envLocalFailCloudFail, freshState, generousLimits,
      CircuitHash.clear]
  refine ⟨rfl, h2, ?_⟩
  rw [h2]
  simp [freshState, CircuitHash.clear]

/-- C4 (amended): circuit-breaker state is mutated exactly by `call_claude`
with a budget enforcer attached (`record_success` on API success,
`record_failure` on API failure), regardless of which route invoked it.  A
successful local call, the no-credential static-default fallback, a missing
budget enforcer, and a budget denial all leave the circuit unchanged; but the
LOCAL fallback path that degrades to a cloud call performs exactly that cloud
call's circuit mutation. -/
theorem c4_circuit_mutation (rt : ModelRouter) (env : RouterEnv) (now : ℚ)
    (w : Nat) (model : String) (mt : Nat) (s : BudgetState) :
    (∀ resp, env.local_model_enabled = true → env.localOutcome = Except.ok resp →
      (call_local_model rt env now w s).2.circuit = s.circuit) ∧
    (rt.anthropic_key = none →
      (local_model_fallback rt env now w s).2.circuit = s.circuit ∧
      (call_local_model rt env now w s).2.circuit = s.circuit ∧
      (call_claude rt env now w model mt s).2.circuit = s.circuit) ∧
    (rt.budget = none →
      (call_claude rt env now w model mt s).2.circuit = s.circuit) ∧
    (∀ k b v, rt.anthropic_key = some k → rt.budget = some b →
      check_daily_tokens b (estimated_input w + mt) s.count_tokens_today =
        Except.error v →
      (call_claude rt env now w model mt s).2 = s) ∧
    (∀ k b, rt.anthropic_key = some k → rt.budget = some b →
      check_daily_tokens b (estimated_input w + mt) s.count_tokens_today =
        Except.ok () →
      (∀ resp, env.cloudOutcome = Except.ok resp →
        (call_claude rt env now w model mt s).2.circuit =
          record_success s.circuit) ∧
      (∀ msg, env.cloudOutcome = Except.error msg →
        (call_claude rt env now w model mt s).2.circuit =
          record_failure now s.circuit)) ∧
    ((∃ e, env.localOutcome = Except.error e) → env.local_model_enabled = true →
      ∀ k, rt.anthropic_key = some k →
      (call_local_model rt env now w s).2.circuit =
        (call_claude rt env now w "claude-haiku-4-5-20251001" 256 s).2.circuit) := by
  refine ⟨?_, ?_, ?_, ?_, ?_, ?_⟩
  · intro resp hen hres
    by_cases hb : rt.budget.isSome <;> simp [call_local_model, hen, hres, hb]
  · intro hk
    have hfb : (local_model_fallback rt env now w s).2.circuit = s.circuit := by
      simp [local_model_fallback, hk]
    refine ⟨hfb, ?_, by simp [call_claude, hk]⟩
    by_cases hen : env.local_model_enabled = false
    · simp [call_local_model, hen, hfb]
    · cases hres : env.localOutcome with
      | ok resp =>
        by_cases hb : rt.budget.isSome <;>
          simp [call_local_model, hen, hres, hb]
      | error e => simp [call_local_model, hen, hres, hfb]
  · intro hb
    cases hk : rt.anthropic_key with
    | none => simp [call_claude, hk]
    | some k =>
      cases hres : env.cloudOutcome with
      | ok resp => simp [call_claude, hk, hb, hres]
      | error msg => simp [call_claude, hk, hb, hres]
  · intro k b v hk hb hchk
    simp [call_claude, hk, hb, hchk]
  · intro k b hk hb hchk
    constructor
    · intro resp hres
      simp [call_claude, hk, hb, hchk, hres]
    · intro msg hres
      simp [call_claude, hk, hb, hchk, hres]
  · rintro ⟨e, he⟩ hen k hk
    simp [call_local_model, hen, he, local_model_fallback, hk]

/-- Witness instantiating `c4_circuit_mutation`: the concrete LOCAL fallback
scenario mutates the circuit exactly as the haiku cloud call does. -/
theorem c4_circuit_mutation_witness :
    (call_local_model rtWithKey envLocalFailCloudFail 0 10 freshState).2.circuit =
      (call_claude rtWithKey envLocalFailCloudFail 0 10
        "claude-haiku-4-5-20251001" 256 freshState).2.circuit :=
  (c4_circuit_mutation rtWithKey envLocalFailCloudFail 0 10 "m" 0
    freshState).2.2.2.2.2 ⟨"timeout", rfl⟩ rfl "k" rfl

/-!
Model of the worker layer (`support_triage.py`, `lead_qualify.py`).

Model-output strings are `List Char`; parsed JSON/YAML documents are `JVal`
values.  The Python parsers (`json.loads`, `yaml.safe_load`) are external
collaborators, taken as parameters returning `none` exactly when they raise
their parse error (`JSONDecodeError` / `YAMLError`); the one grammar fact the
proofs use - a JSON document that starts with a left brace parses to an
object - is an explicit hypothesis.  Python floats appearing in JSON are
exact rationals; Python semantics of truthiness, `in`, subscription,
`dict.get`, iteration and comparisons are modelled per value shape, raising
`TypeError`/`KeyError`/`AttributeError` as strings where Python would.
-/

/-- Left curly brace character (code point 123). -/
def lbrace : Char := Char.ofNat 123

/-- Right curly brace character (code point 125). -/
def rbrace : Char := Char.ofNat 125

/-- Parsed JSON/YAML values as Python would hold them after decoding. -/
inductive JVal where
  | jnull : JVal
  | jbool (b : Bool) : JVal
  | jnum (q : ℚ) : JVal
  | jstr (s : String) : JVal
  | jarr (xs : List JVal) : JVal
  | jobj (fields : List (String × JVal)) : JVal
deriving Repr, BEq

/-- Python truthiness of a decoded value. -/
def JVal.truthy : JVal → Bool
  | .jnull => false
  | .jbool b => b
  | .jnum q => decide (q ≠ 0)
  | .jstr s => decide (s ≠ "")
  | .jarr xs => !xs.isEmpty
  | .jobj fs => !fs.isEmpty

/-- Python `dict.get(key, default)` for a string key on a decoded object. -/
def jget (fs : List (String × JVal)) (k : String) (d : JVal) : JVal :=
  match fs.lookup k with
  | some v => v
  | none => d

/-- Python `str.index(ch)` as an option (Python raises `ValueError` on
absence). -/
def pyIndex : List Char → Char → Option Nat
  | [], _ => none
  | c :: cs, t => if c = t then some 0 else (pyIndex cs t).map (· + 1)

/-- Python `str.rindex(ch)` as an option. -/
def pyRindex (cs : List Char) (t : Char) : Option Nat :=
  (pyIndex cs.reverse t).map (fun i => cs.length - 1 - i)

/-- Python slice `s[i:j]` for nonnegative bounds (empty when `j ≤ i`). -/
def pySlice (cs : List Char) (i j : Nat) : List Char := (cs.drop i).take (j - i)

/-- Python `>=` between a decoded value and a float: numbers and bools
compare numerically, anything else raises `TypeError`. -/
def pyGeNum (v : JVal) (q : ℚ) : Except String Bool :=
  match v with
  | .jnum x => Except.ok (decide (x ≥ q))
  | .jbool b => Except.ok (decide ((if b then (1 : ℚ) else 0) ≥ q))
  | _ => Except.error "TypeError"

/-- Python `>` between a decoded value and a float. -/
def pyGtNum (v : JVal) (q : ℚ) : Except String Bool :=
  match v with
  | .jnum x => Except.ok (decide (x > q))
  | .jbool b => Except.ok (decide ((if b then (1 : ℚ) else 0) > q))
  | _ => Except.error "TypeError"

/-- Python `<` between two decoded values: numbers/bools numerically,
strings lexicographically, anything else raises `TypeError` (lists of
comparable elements are also approximated as `TypeError`; no theorem below
exercises that path). -/
def pyLt (a b : JVal) : Except String Bool :=
  match a, b with
  | .jnum x, .jnum y => Except.ok (decide (x < y))
  | .jnum x, .jbool b2 => Except.ok (decide (x < (if b2 then (1 : ℚ) else 0)))
  | .jbool b1, .jnum y => Except.ok (decide ((if b1 then (1 : ℚ) else 0) < y))
  | .jbool b1, .jbool b2 =>
    Except.ok (decide ((if b1 then (1 : ℚ) else 0) < (if b2 then (1 : ℚ) else 0)))
  | .jstr s, .jstr t => Except.ok (decide (s < t))
  | _, _ => Except.error "TypeError"

/-- Whether the first character list starts with the second. -/
def listStartsWith : List Char → List Char → Bool
  | [], _ => true
  | _ :: _, [] => false
  | a :: as, b :: bs => a == b && listStartsWith as bs

/-- Substring containment on character lists (Python `needle in haystack`
for strings). -/
def strContains (needle : List Char) : List Char → Bool
  | [] => needle.isEmpty
  | c :: rest => listStartsWith needle (c :: rest) || strContains needle rest

/-- Python membership `x in container`: dict containers test string keys
(non-string hashables never match the string-keyed configs, unhashables
raise), list containers test equality, string containers test substring
(both sides strings), everything else raises `TypeError`. -/
def pyMem (x container : JVal) : Except String Bool :=
  match container with
  | .jobj fs =>
    match x with
    | .jarr _ => Except.error "TypeError"
    | .jobj _ => Except.error "TypeError"
    | .jstr s => Except.ok ((fs.lookup s).isSome)
    | _ => Except.ok false
  | .jarr xs => Except.ok (xs.any (fun y => x == y))
  | .jstr s =>
    match x with
    | .jstr xs => Except.ok (strContains xs.toList s.toList)
    | _ => Except.error "TypeError"
  | _ => Except.error "TypeError"

/-- Python subscription `container[key]` as used on decoded config values:
object with present string key succeeds, missing string key raises
`KeyError`, unhashable keys raise `TypeError`, other hashable keys raise
`KeyError` (absent from the string-keyed configs), and non-object containers
raise `TypeError`. -/
def pySubscript (container key : JVal) : Except String JVal :=
  match container, key with
  | .jobj fs, .jstr s =>
    match fs.lookup s with
    | some v => Except.ok v
    | none => Except.error "KeyError"
  | .jobj _, .jarr _ => Except.error "TypeError"
  | .jobj _, .jobj _ => Except.error "TypeError"
  | .jobj _, _ => Except.error "KeyError"
  | _, _ => Except.error "TypeError"

/-- Python `dict.get(key, default)` with an arbitrary decoded key. -/
def pyDictGet (fs : List (String × JVal)) (key : JVal) (d : JVal) :
    Except String JVal :=
  match key with
  | .jstr s => Except.ok (jget fs s d)
  | .jarr _ => Except.error "TypeError"
  | .jobj _ => Except.error "TypeError"
  | _ => Except.ok d

/-- Python iteration (`list.extend(value)`): lists yield elements, strings
yield one-character strings, dicts yield keys, everything else raises. -/
def pyIterate (v : JVal) : Except String (List JVal) :=
  match v with
  | .jarr xs => Except.ok xs
  | .jstr s => Except.ok (s.toList.map (fun c => JVal.jstr (String.mk [c])))
  | .jobj fs => Except.ok (fs.map (fun kv => JVal.jstr kv.1))
  | _ => Except.error "TypeError"

/-- Coercion of a decoded value to a number where Python arithmetic needs
one (`timedelta(hours=...)`): numbers and bools; otherwise `TypeError`. -/
def pyNum (v : JVal) : Except String ℚ :=
  match v with
  | .jnum q => Except.ok q
  | .jbool b => Except.ok (if b then 1 else 0)
  | _ => Except.error "TypeError"

/-- The `Ticket` record fields the modelled steps read or write. -/
structure Ticket where
  status : String
  reply_sent : Bool
  category : Option JVal
  priority : Option JVal
  sentiment : Option JVal
  suggested_team : Option JVal
  needs_human : Option JVal
  classification_confidence : Option JVal
  classification_raw : Option JVal
  assigned_team : Option JVal
  tags : Option (List JVal)
  sla_due_at : Option ℚ
deriving Repr

/-- A freshly created ticket. -/
def initTicket : Ticket :=
  ⟨"new", false, none, none, none, none, none, none, none, none, none, none⟩

/-- The `Lead` record fields the modelled steps read or write. -/
structure Lead where
  status : String
  company_size_cue : Option JVal
  intent_classification : Option JVal
  urgency : Option JVal
  industry : Option JVal
  spam_score : Option JVal
  extraction_confidence : Option JVal
  extraction_raw : Option JVal
  qualification_summary : Option JVal
  score : Option JVal
  follow_up_questions : Option JVal
  suggested_next_step : Option JVal
  email_drafts : Option JVal
  follow_up_scheduled_at : Option ℚ
deriving Repr

/-- A freshly created lead. -/
def initLead : Lead :=
  ⟨"new", none, none, none, none, none, none, none, none, none, none, none,
    none, none⟩

/-- Defaults written by `_apply_classification` when the content has no brace
or parsing raises (the `else` and `except` branches assign the same four
fields). -/
def classify_defaults (t : Ticket) : Ticket :=
  { t with
    category := some (JVal.jstr "general"),
    priority := some (JVal.jstr "medium"),
    needs_human := some (JVal.jbool true),
    classification_confidence := some (JVal.jnum 0) }

/-- Field assignments of `_apply_classification` when the decoded document
is an object: each ticket field takes the decoded value or its per-field
default. -/
def classify_from (fs : List (String × JVal)) (t : Ticket) : Ticket :=
  { t with
    category := some (jget fs "category" (JVal.jstr "general")),
    priority := some (jget fs "priority" (JVal.jstr "medium")),
    sentiment := some (jget fs "sentiment" (JVal.jstr "neutral")),
    suggested_team := some (jget fs "suggested_team" (JVal.jstr "support")),
    needs_human := some (jget fs "needs_human" (JVal.jbool true)),
    classification_confidence := some (jget fs "confidence" (JVal.jnum (1 / 2))),
    classification_raw := some (JVal.jobj fs) }

/-- Model of `_apply_classification`: extract the substring from the first
left brace to the last right brace, decode it, and fill the ticket fields
with decoded values or per-field defaults; a missing right brace
(`ValueError`) or a parse failure (`JSONDecodeError`) is caught and degrades
to `classify_defaults`; a successful parse to a non-object hits `data.get`
and raises `AttributeError`, which the code does not catch. -/
def apply_classification (loads : List Char → Option JVal) (content : List Char)
    (t : Ticket) : Except String Ticket :=
  match pyIndex content lbrace with
  | none => Except.ok (classify_defaults t)
  | some i =>
    match pyRindex content rbrace with
    | none => Except.ok (classify_defaults t)
    | some j =>
      match loads (pySlice content i (j + 1)) with
      | none => Except.ok (classify_defaults t)
      | some (JVal.jobj fs) => Except.ok (classify_from fs t)
      | some _ => Except.error "AttributeError"

/-- Defaults written by `_apply_extraction` in its `else`/`except`
branches. -/
def extract_defaults (l : Lead) : Lead :=
  { l with
    company_size_cue := some (JVal.jstr "unknown"),
    intent_classification := some (JVal.jstr "general"),
    urgency := some (JVal.jstr "medium"),
    spam_score := some (JVal.jnum 0),
    extraction_confidence := some (JVal.jnum 0) }

/-- Field assignments of `_apply_extraction` when the decoded document is an
object. -/
def extract_from (fs : List (String × JVal)) (l : Lead) : Lead :=
  { l with
    company_size_cue := some (jget fs "company_size_cue" (JVal.jstr "unknown")),
    intent_classification := some (jget fs "intent_classification" (JVal.jstr "general")),
    urgency := some (jget fs "urgency" (JVal.jstr "medium")),
    industry := some (jget fs "industry" (JVal.jstr "other")),
    spam_score := some (jget fs "spam_score" (JVal.jnum 0)),
    extraction_confidence := some (jget fs "confidence" (JVal.jnum (1 / 2))),
    extraction_raw := some (JVal.jobj fs) }

/-- Model of `_apply_extraction`, structured exactly like
`apply_classification`. -/
def apply_extraction (loads : List Char → Option JVal) (content : List Char)
    (l : Lead) : Except String Lead :=
  match pyIndex content lbrace with
  | none => Except.ok (extract_defaults l)
  | some i =>
    match pyRindex content rbrace with
    | none => Except.ok (extract_defaults l)
    | some j =>
      match loads (pySlice content i (j + 1)) with
      | none => Except.ok (extract_defaults l)
      | some (JVal.jobj fs) => Except.ok (extract_from fs l)
      | some _ => Except.error "AttributeError"

/-- If `pyIndex` locates `t` at position `i`, the list dropped to `i` starts
with `t`. -/
lemma pyIndex_drop (t : Char) :
    ∀ (cs : List Char) (i : Nat), pyIndex cs t = some i →
      (cs.drop i).head? = some t := by
  intro cs
  induction cs with
  | nil => intro i h; simp [pyIndex] at h
  | cons c rest ih =>
    intro i h
    by_cases hc : c = t
    · simp [pyIndex, hc] at h
      subst h
      simp [hc]
    · simp [pyIndex, hc] at h
      obtain ⟨i0, h0, hi⟩ := h
      subst hi
      simpa using ih i0 h0

/-- A nonempty brace-to-brace slice starts with the left brace. -/
lemma pySlice_head (cs : List Char) (i j : Nat)
    (h : pyIndex cs lbrace = some i) (hne : pySlice cs i j ≠ []) :
    (pySlice cs i j).head? = some lbrace := by
  have hd := pyIndex_drop lbrace cs i h
  revert hne
  unfold pySlice
  cases hdrop : cs.drop i with
  | nil => rw [hdrop] at hd; simp at hd
  | cons a as =>
    rw [hdrop] at hd
    simp at hd
    subst hd
    intro hne
    cases hk : j - i with
    | zero => rw [hk] at hne; simp at hne
    | succ k => simp [hk]

/-- C7: for every model-output string and every JSON decoder satisfying the
JSON grammar (a successfully decoded document starting with a left brace is
an object; the empty string does not decode), `_apply_classification` and
`_apply_extraction` never raise: every internal failure (missing closing
brace, undecodable JSON) is of the caught types and degrades to the built-in
conservative defaults (category `general`, priority `medium`, `needs_human`
true, confidence 0.0), and content without a brace degrades likewise. -/
theorem c7_apply_never_raises (loads : List Char → Option JVal)
    (hobj : ∀ s v, loads s = some v → s.head? = some lbrace →
      ∃ fs, v = JVal.jobj fs)
    (hnil : loads [] = none)
    (content : List Char) (t : Ticket) (l : Lead) :
    (∃ t2, apply_classification loads content t = Except.ok t2) ∧
    (∃ l2, apply_extraction loads content l = Except.ok l2) ∧
    (pyIndex content lbrace = none →
      apply_classification loads content t = Except.ok (classify_defaults t) ∧
      apply_extraction loads content l = Except.ok (extract_defaults l)) := by
  have key : ∀ i j v, pyIndex content lbrace = some i →
      loads (pySlice content i (j + 1)) = some v → ∃ fs, v = JVal.jobj fs := by
    intro i j v hi hv
    by_cases hne : pySlice content i (j + 1) = []
    · rw [hne, hnil] at hv; cases hv
    · exact hobj _ v hv (pySlice_head content i (j + 1) hi hne)
  refine ⟨?_, ?_, ?_⟩
  · cases hi : pyIndex content lbrace with
    | none => exact ⟨classify_defaults t, by simp [apply_classification, hi]⟩
    | some i =>
      cases hj : pyRindex content rbrace with
      | none => exact ⟨classify_defaults t, by simp [apply_classification, hi, hj]⟩
      | some j =>
        cases hv : loads (pySlice content i (j + 1)) with
        | none =>
          exact ⟨classify_defaults t, by simp [apply_classification, hi, hj, hv]⟩
        | some v =>
          obtain ⟨fs, rfl⟩ := key i j v hi hv
          exact ⟨classify_from fs t, by simp [apply_classification, hi, hj, hv]⟩
  · cases hi : pyIndex content lbrace with
    | none => exact ⟨extract_defaults l, by simp [apply_extraction, hi]⟩
    | some i =>
      cases hj : pyRindex content rbrace with
      | none => exact ⟨extract_defaults l, by simp [apply_extraction, hi, hj]⟩
      | some j =>
        cases hv : loads (pySlice content i (j + 1)) with
        | none =>
          exact ⟨extract_defaults l, by simp [apply_extraction, hi, hj, hv]⟩
        | some v =>
          obtain ⟨fs, rfl⟩ := key i j v hi hv
          exact ⟨extract_from fs l, by simp [apply_extraction, hi, hj, hv]⟩
  · intro hi
    exact ⟨by simp [apply_classification, hi], by simp [apply_extraction, hi]⟩

/-- Witness instantiating `c7_apply_never_raises` with a decoder that always
fails and non-JSON content: both steps return the conservative defaults. -/
theorem c7_apply_never_raises_witness :
    apply_classification (fun _ => none) (String.toList "plain text reply")
        initTicket = Except.ok (classify_defaults initTicket) ∧
    apply_extraction (fun _ => none) (String.toList "plain text reply")
        initLead = Except.ok (extract_defaults initLead) :=
  (c7_apply_never_raises (fun _ => none) (fun s v h => by cases h)
    rfl (String.toList "plain text reply") initTicket initLead).2.2 (by decide)

/-- Field assignments of `_apply_qualification` when the decoded document is
an object. -/
def qualify_from (fs : List (String × JVal)) (l : Lead) : Lead :=
  { l with
    qualification_summary := some (jget fs "qualification_summary" (JVal.jstr "")),
    score := some (jget fs "score" (JVal.jnum 50)),
    follow_up_questions := some (jget fs "follow_up_questions" (JVal.jarr [])),
    suggested_next_step := some (jget fs "suggested_next_step" (JVal.jstr "email")) }

/-- Defaults of `_apply_qualification` (`else`/`except` branches keep the raw
content as the summary). -/
def qualify_defaults (content : List Char) (l : Lead) : Lead :=
  { l with
    qualification_summary := some (JVal.jstr (String.mk content)),
    score := some (JVal.jnum 50),
    suggested_next_step := some (JVal.jstr "email") }

/-- Model of `_apply_qualification`. -/
def apply_qualification (loads : List Char → Option JVal) (content : List Char)
    (l : Lead) : Except String Lead :=
  match pyIndex content lbrace with
  | none => Except.ok (qualify_defaults content l)
  | some i =>
    match pyRindex content rbrace with
    | none => Except.ok (qualify_defaults content l)
    | some j =>
      match loads (pySlice content i (j + 1)) with
      | none => Except.ok (qualify_defaults content l)
      | some (JVal.jobj fs) => Except.ok (qualify_from fs l)
      | some _ => Except.error "AttributeError"

/-- Defaults of `_apply_email_drafts`: one follow-up draft holding the raw
content. -/
def email_defaults (content : List Char) (l : Lead) : Lead :=
  { l with
    email_drafts := some (JVal.jarr
      [JVal.jobj [("subject", JVal.jstr "Follow-up"),
        ("body", JVal.jstr (String.mk content))]]) }

/-- Model of `_apply_email_drafts`. -/
def apply_email_drafts (loads : List Char → Option JVal) (content : List Char)
    (l : Lead) : Except String Lead :=
  match pyIndex content lbrace with
  | none => Except.ok (email_defaults content l)
  | some i =>
    match pyRindex content rbrace with
    | none => Except.ok (email_defaults content l)
    | some j =>
      match loads (pySlice content i (j + 1)) with
      | none => Except.ok (email_defaults content l)
      | some (JVal.jobj fs) =>
        Except.ok { l with email_drafts := some (jget fs "emails" (JVal.jarr [])) }
      | some _ => Except.error "AttributeError"

/-- The spam short-circuit gate of `process_lead`:
`if lead.spam_score and lead.spam_score > 0.8` - truthiness first, then the
Python comparison (which raises `TypeError` on non-numeric values). -/
def spam_gate (l : Lead) : Except String Bool :=
  match l.spam_score with
  | none => Except.ok false
  | some v => if v.truthy then pyGtNum v (4 / 5) else Except.ok false

/-- External-world outcomes for one lead run: the result of each routed model
call, the CRM sync (`ok b` with `b` = CRM configured and synced), and the
Slack notification (`ok` when unconfigured or delivered). -/
structure LeadEnv where
  extractOutcome : Except RouterErr CallResult
  qualifyOutcome : Except RouterErr CallResult
  crmOutcome : Except String Bool
  emailOutcome : Except RouterErr CallResult
  notifyOutcome : Except String Unit

/-- The Run fields `process_lead` maintains (status, `current_step`, the
`steps_completed` list of step names). -/
structure RunRecord where
  status : String
  current_step : String
  steps_completed : List String
deriving DecidableEq, Repr

/-- The full lead workflow's step list (module docstring of
`lead_qualify.py`: extract, qualify, crm, email drafts, notify). -/
def lead_workflow_steps : List String :=
  ["extract", "qualify", "crm", "email_drafts", "notify"]

/-- Model of `process_lead`: the spam gate right after extraction ends the
run as `completed` with only the extract step recorded and the lead
disqualified; otherwise the remaining steps run, any step exception marks the
run `failed` (keeping the last `current_step`), and a full run ends
`completed` with `current_step` done.  The returned boolean records whether
the cloud qualification step was ever invoked. -/
def process_lead (loads : List Char → Option JVal) (env : LeadEnv) (now : ℚ)
    (l0 : Lead) : RunRecord × Lead × Bool :=
  let l1 : Lead := { l0 with status := "processing" }
  match env.extractOutcome with
  | Except.error _ => (⟨"failed", "extract", []⟩, l1, false)
  | Except.ok res =>
    match apply_extraction loads res.content.toList l1 with
    | Except.error _ => (⟨"failed", "extract", []⟩, l1, false)
    | Except.ok l2 =>
      match spam_gate l2 with
      | Except.error _ => (⟨"failed", "extract", []⟩, l2, false)
      | Except.ok true =>
        (⟨"completed", "extract", ["extract"]⟩,
         { l2 with status := "disqualified" }, false)
      | Except.ok false =>
        match env.qualifyOutcome with
        | Except.error _ => (⟨"failed", "qualify", []⟩, l2, true)
        | Except.ok qres =>
          match apply_qualification loads qres.content.toList l2 with
          | Except.error _ => (⟨"failed", "qualify", []⟩, l2, true)
          | Except.ok l3 =>
            match env.crmOutcome with
            | Except.error _ => (⟨"failed", "crm", []⟩, l3, true)
            | Except.ok crmDone =>
              let steps3 : List String :=
                if crmDone then ["extract", "qualify", "crm"]
                else ["extract", "qualify"]
              match env.emailOutcome with
              | Except.error _ => (⟨"failed", "email_drafts", []⟩, l3, true)
              | Except.ok eres =>
                match apply_email_drafts loads eres.content.toList l3 with
                | Except.error _ => (⟨"failed", "email_drafts", []⟩, l3, true)
                | Except.ok l4 =>
                  match env.notifyOutcome with
                  | Except.error _ => (⟨"failed", "notify", []⟩, l4, true)
                  | Except.ok _ =>
                    (⟨"completed", "done", steps3 ++ ["email_drafts", "notify"]⟩,
                     { l4 with
                        status := "qualified",
                        follow_up_scheduled_at := some (now + 86400) }, true)

/-- C6: whenever the extraction step yields a numeric `spam_score`
strictly above 0.8, the lead run terminates early as `completed` with a
`steps_completed` list strictly shorter than the full workflow (just
`extract`), the lead is marked `disqualified`, and the cloud qualification
step is never invoked. -/
theorem c6_spam_short_circuit (loads : List Char → Option JVal) (env : LeadEnv)
    (now : ℚ) (l0 : Lead) (res : CallResult) (l2 : Lead) (q : ℚ)
    (hres : env.extractOutcome = Except.ok res)
    (happ : apply_extraction loads res.content.toList
      { l0 with status := "processing" } = Except.ok l2)
    (hspam : l2.spam_score = some (JVal.jnum q)) (hq : q > 4 / 5) :
    (process_lead loads env now l0).1.status = "completed" ∧
    (process_lead loads env now l0).2.1.status = "disqualified" ∧
    (process_lead loads env now l0).1.steps_completed = ["extract"] ∧
    (process_lead loads env now l0).1.steps_completed.length <
      lead_workflow_steps.length ∧
    (process_lead loads env now l0).2.2 = false := by
  have h0 : (0 : ℚ) < q := lt_trans (by norm_num) hq
  have hne : q ≠ 0 := ne_of_gt h0
  have hgate : spam_gate l2 = Except.ok true := by
    simp [spam_gate, hspam, JVal.truthy, hne, pyGtNum, hq]
  simp only [String.toList] at happ
  simp [process_lead, hres, happ, hgate, lead_workflow_steps]

/-- Decoder fixture for the C6 witness: decodes the two-character document
consisting of the braces to an object with spam score 0.9. -/
def loadsSpam : List Char → Option JVal := fun s =>
  if s = [lbrace, rbrace] then
    some (JVal.jobj [("spam_score", JVal.jnum (9 / 10))])
  else none

/-- Environment fixture for the C6 witness: extraction returns the braces
document; later steps are irrelevant (the gate fires first). -/
def envSpam : LeadEnv :=
  ⟨Except.ok ⟨String.mk [lbrace, rbrace], "local_7b", 5, 0, none, none⟩,
   Except.error (RouterErr.backend "unused"), Except.error "unused",
   Except.error (RouterErr.backend "unused"), Except.error "unused"⟩

/-- Witness instantiating `c6_spam_short_circuit` on the concrete spam-scored
extraction. -/
theorem c6_spam_short_circuit_witness :
    (process_lead loadsSpam envSpam 0 initLead).1.status = "completed" ∧
    (process_lead loadsSpam envSpam 0 initLead).2.1.status = "disqualified" ∧
    (process_lead loadsSpam envSpam 0 initLead).1.steps_completed = ["extract"] ∧
    (process_lead loadsSpam envSpam 0 initLead).1.steps_completed.length <
      lead_workflow_steps.length ∧
    (process_lead loadsSpam envSpam 0 initLead).2.2 = false :=
  c6_spam_short_circuit loadsSpam envSpam 0 initLead
    ⟨String.mk [lbrace, rbrace], "local_7b", 5, 0, none, none⟩
    (extract_from [("spam_score", JVal.jnum (9 / 10))]
      { initLead with status := "processing" })
    (9 / 10) rfl
    (by simp [apply_extraction, pyIndex, pyRindex, pySlice, loadsSpam, lbrace,
      rbrace])
    (by simp [extract_from, jget]) (by norm_num)

/-- Truthiness of `ticket.needs_human` (an absent field is `None`, falsy). -/
def needsHumanTruthy (t : Ticket) : Bool :=
  match t.needs_human with
  | none => false
  | some v => v.truthy

/-- Model of the auto-send check (step 5 of `process_support_ticket`,
lines 104-125): the Python condition `tenant.autosend_enabled and
ticket.classification_confidence and confidence >= tenant.confidence_threshold
and not ticket.needs_human` evaluated left to right with Python truthiness;
on success the reply is marked sent and the ticket status set to `sent`,
otherwise the status becomes `draft_ready`.  Nothing after this step writes
ticket fields, so the resulting status is the ticket's final status.  The
returned boolean is `auto_sent`. -/
def autosend_check (autosend_enabled : Bool) (confidence_threshold : ℚ)
    (t : Ticket) : Except String (Ticket × Bool) :=
  if autosend_enabled = false then
    Except.ok ({ t with status := "draft_ready" }, false)
  else
    match t.classification_confidence with
    | none => Except.ok ({ t with status := "draft_ready" }, false)
    | some v =>
      if v.truthy = false then
        Except.ok ({ t with status := "draft_ready" }, false)
      else
        match pyGeNum v confidence_threshold with
        | Except.error e => Except.error e
        | Except.ok false => Except.ok ({ t with status := "draft_ready" }, false)
        | Except.ok true =>
          if needsHumanTruthy t then
            Except.ok ({ t with status := "draft_ready" }, false)
          else
            Except.ok ({ t with reply_sent := true, status := "sent" }, true)

/-- The `ticket.suggested_team or "support"` fallback of
`_apply_routing_rules`. -/
def suggested_or_support (t : Ticket) : JVal :=
  match t.suggested_team with
  | none => JVal.jstr "support"
  | some v => if v.truthy then v else JVal.jstr "support"

/-- The config-loading preamble of `_apply_routing_rules`: start from `{}`;
a falsy document (absent or empty text) is skipped; a `YAMLError` is caught
and ignored; a falsy parse result is replaced by `{}` (the `or {}`). -/
def parse_config (yload : String → Option JVal)
    (support_config_yaml : Option String) : JVal :=
  match support_config_yaml with
  | none => JVal.jobj []
  | some txt =>
    if txt = "" then JVal.jobj []
    else match yload txt with
      | none => JVal.jobj []
      | some v => if v.truthy then v else JVal.jobj []

/-- The `ticket.classification_confidence or 0` value of the escalation
check. -/
def confOr0 (t : Ticket) : JVal :=
  match t.classification_confidence with
  | none => JVal.jnum 0
  | some v => if v.truthy then v else JVal.jnum 0

/-- The `ticket.priority or "medium"` SLA key. -/
def prioKey (t : Ticket) : JVal :=
  match t.priority with
  | none => JVal.jstr "medium"
  | some v => if v.truthy then v else JVal.jstr "medium"

/-- Team assignment of `_apply_routing_rules`: `if ticket.category and
ticket.category in team_map` pick `team_map[category]`, else the suggested
team or `support`. -/
def team_assignment (team_map : JVal) (t : Ticket) : Except String JVal :=
  match t.category with
  | none => Except.ok (suggested_or_support t)
  | some cat =>
    if cat.truthy then do
      let isMem ← pyMem cat team_map
      if isMem then pySubscript team_map cat
      else Except.ok (suggested_or_support t)
    else Except.ok (suggested_or_support t)

/-- One auto-tag lookup of `_apply_routing_rules`:
`if value in auto_tags.get(key, {}): tags.extend(auto_tags[key][value])`. -/
def tags_from (afs : List (String × JVal)) (key : String) (v : JVal) :
    Except String (List JVal) := do
  let isMem ← pyMem v (jget afs key (JVal.jobj []))
  if isMem then do
    let m ← pySubscript (JVal.jobj afs) (JVal.jstr key)
    let items ← pySubscript m v
    pyIterate items
  else Except.ok []

/-- Model of `_apply_routing_rules`: only `yaml.YAMLError` is caught; the
document (or its `routing` / `auto_tags` / `sla_hours` sections) parsing to a
non-mapping reaches an attribute access on a non-dict and raises
`AttributeError`; team assignment falls back to the suggested team or
`support`; SLA hours default to 24; the escalation threshold defaults to 0.5.
Field writes are modelled as one final record update (the code assigns
progressively, but no modelled theorem reads partially-written state on the
error paths). -/
def apply_routing_rules (yload : String → Option JVal) (now : ℚ)
    (support_config_yaml : Option String) (t : Ticket) :
    Except String Ticket := do
  let config := parse_config yload support_config_yaml
  let cfs ← (match config with
    | JVal.jobj cfs => Except.ok cfs
    | _ => Except.error "AttributeError")
  let routing := jget cfs "routing" (JVal.jobj [])
  let rfs ← (match routing with
    | JVal.jobj rfs => Except.ok rfs
    | _ => Except.error "AttributeError")
  let team_map := jget rfs "team_map" (JVal.jobj [])
  let assigned ← team_assignment team_map t
  let auto_tags := jget rfs "auto_tags" (JVal.jobj [])
  let afs ← (match auto_tags with
    | JVal.jobj afs => Except.ok afs
    | _ => Except.error "AttributeError")
  let tags1 ← tags_from afs "priority" (t.priority.getD JVal.jnull)
  let tags2 ← tags_from afs "sentiment" (t.sentiment.getD JVal.jnull)
  let tags := tags1 ++ tags2
  let sla := jget rfs "sla_hours" (JVal.jobj [])
  let sfs ← (match sla with
    | JVal.jobj sfs => Except.ok sfs
    | _ => Except.error "AttributeError")
  let hoursV ← pyDictGet sfs (prioKey t) (JVal.jnum 24)
  let hours ← pyNum hoursV
  let escalate_threshold := jget rfs "escalate_confidence_below" (JVal.jnum (1 / 2))
  let esc ← pyLt (confOr0 t) escalate_threshold
  if esc then
    Except.ok { t with
      assigned_team := some assigned,
      tags := some (tags ++ [JVal.jstr "auto-escalated"]),
      sla_due_at := some (now + hours * 3600),
      needs_human := some (JVal.jbool true),
      status := "escalated" }
  else
    Except.ok { t with
      assigned_team := some assigned,
      tags := some tags,
      sla_due_at := some (now + hours * 3600) }

/-- A ticket whose numeric classification confidence is exactly 0.0, with
`needs_human` false. -/
def ticketConf0 : Ticket :=
  { initTicket with
    classification_confidence := some (JVal.jnum 0),
    needs_human := some (JVal.jbool false) }

/-- C10 counterexample: with auto-send enabled, confidence present (0.0),
threshold 0.0 (so confidence is at least the threshold) and `needs_human`
false, the claim says the reply is auto-sent; the code tests Python
truthiness of the confidence first, so 0.0 short-circuits to `draft_ready`
and no reply is sent. -/
theorem c10_counterexample :
    ticketConf0.classification_confidence = some (JVal.jnum 0) ∧
    (0 : ℚ) ≥ (0 : ℚ) ∧
    needsHumanTruthy ticketConf0 = false ∧
    autosend_check true 0 ticketConf0 =
      Except.ok ({ ticketConf0 with status := "draft_ready" }, false) := by
  refine ⟨rfl, le_refl 0, rfl, ?_⟩
  simp [autosend_check, ticketConf0, initTicket, JVal.truthy]

/-- C10 (amended): for tickets whose classification confidence is absent or
numeric, the auto-send step never raises, and a reply is auto-sent
(`reply_sent` true, status `sent`) iff auto-send is enabled, the confidence
is present, nonzero (Python truthiness) and at least the tenant threshold,
and `needs_human` is falsy; in every other case the final status is
`draft_ready` and `reply_sent` is unchanged. -/
theorem c10_autosend_iff (autosend : Bool) (threshold : ℚ) (t : Ticket)
    (hconf : t.classification_confidence = none ∨
      ∃ q, t.classification_confidence = some (JVal.jnum q)) :
    ∃ t2 sent, autosend_check autosend threshold t = Except.ok (t2, sent) ∧
      (sent = true ↔ autosend = true ∧
        (∃ q, t.classification_confidence = some (JVal.jnum q) ∧ q ≠ 0 ∧
          q ≥ threshold) ∧ needsHumanTruthy t = false) ∧
      (sent = true → t2.status = "sent" ∧ t2.reply_sent = true) ∧
      (sent = false → t2.status = "draft_ready" ∧ t2.reply_sent = t.reply_sent) := by
  by_cases ha : autosend = false
  · refine ⟨{ t with status := "draft_ready" }, false, ?_, ?_, ?_, ?_⟩
    · simp [autosend_check, ha]
    · simp [ha]
    · intro h; cases h
    · intro _; exact ⟨rfl, rfl⟩
  · have ha2 : autosend = true := by
      cases autosend <;> simp_all
    rcases hconf with hc | ⟨q, hc⟩
    · refine ⟨{ t with status := "draft_ready" }, false, ?_, ?_, ?_, ?_⟩
      · simp [autosend_check, ha, hc]
      · simp [hc]
      · intro h; cases h
      · intro _; exact ⟨rfl, rfl⟩
    · by_cases hq0 : q = 0
      · subst hq0
        refine ⟨{ t with status := "draft_ready" }, false, ?_, ?_, ?_, ?_⟩
        · simp [autosend_check, ha, hc, JVal.truthy]
        · simp [hc]
        · intro h; cases h
        · intro _; exact ⟨rfl, rfl⟩
      · by_cases hge : q ≥ threshold
        · by_cases hnh : needsHumanTruthy t = true
          · refine ⟨{ t with status := "draft_ready" }, false, ?_, ?_, ?_, ?_⟩
            · simp [autosend_check, ha, hc, JVal.truthy, hq0, pyGeNum, hge, hnh]
            · simp [hnh]
            · intro h; cases h
            · intro _; exact ⟨rfl, rfl⟩
          · have hnh2 : needsHumanTruthy t = false := by
              cases h : needsHumanTruthy t <;> simp_all
            refine ⟨{ t with reply_sent := true, status := "sent" }, true,
              ?_, ?_, ?_, ?_⟩
            · simp [autosend_check, ha, hc, JVal.truthy, hq0, pyGeNum, hge, hnh2]
            · simp [ha2, hc, hq0, hge, hnh2]
            · intro _; exact ⟨rfl, rfl⟩
            · intro h; cases h
        · refine ⟨{ t with status := "draft_ready" }, false, ?_, ?_, ?_, ?_⟩
          · simp [autosend_check, ha, hc, JVal.truthy, hq0, pyGeNum, hge]
          · simp [hc, hge]
          · intro h; cases h
          · intro _; exact ⟨rfl, rfl⟩

/-- A ticket with a high numeric confidence and `needs_human` false. -/
def ticketConfHigh : Ticket :=
  { initTicket with
    classification_confidence := some (JVal.jnum (9 / 10)),
    needs_human := some (JVal.jbool false) }

/-- Witness instantiating `c10_autosend_iff` at threshold 0.85 with
confidence 0.9. -/
theorem c10_autosend_iff_witness :
    ∃ t2 sent, autosend_check true (17 / 20) ticketConfHigh =
        Except.ok (t2, sent) ∧
      (sent = true ↔ true = true ∧
        (∃ q, ticketConfHigh.classification_confidence = some (JVal.jnum q) ∧
          q ≠ 0 ∧ q ≥ 17 / 20) ∧ needsHumanTruthy ticketConfHigh = false) ∧
      (sent = true → t2.status = "sent" ∧ t2.reply_sent = true) ∧
      (sent = false → t2.status = "draft_ready" ∧
        t2.reply_sent = ticketConfHigh.reply_sent) :=
  c10_autosend_iff true (17 / 20) ticketConfHigh (Or.inr ⟨9 / 10, rfl⟩)

/-- Bind of a successful `Except` computation. -/
lemma except_ok_bind {ε α β : Type} (a : α) (f : α → Except ε β) :
    (Except.ok a : Except ε α) >>= f = f a := rfl

/-- Bind of a failed `Except` computation. -/
lemma except_error_bind {ε α β : Type} (e : ε) (f : α → Except ε β) :
    (Except.error e : Except ε α) >>= f = Except.error e := rfl

/-- Python-hashable decoded values (everything but lists and dicts). -/
def hashable : JVal → Prop
  | JVal.jarr _ => False
  | JVal.jobj _ => False
  | _ => True

/-- `dict.get` on an empty mapping yields the default. -/
lemma jget_nil (k : String) (d : JVal) : jget [] k d = d := rfl

/-- Membership of a hashable value in an empty mapping is false (and does not
raise). -/
lemma pyMem_empty (v : JVal) (h : hashable v) :
    pyMem v (JVal.jobj []) = Except.ok false := by
  cases v with
  | jarr xs => exact h.elim
  | jobj fs => exact h.elim
  | jstr s => simp [pyMem, List.lookup]
  | jnull => rfl
  | jbool b => rfl
  | jnum q => rfl

/-- `dict.get` with a hashable key on an empty mapping yields the default
(and does not raise). -/
lemma pyDictGet_empty (key d : JVal) (h : hashable key) :
    pyDictGet [] key d = Except.ok d := by
  cases key with
  | jarr xs => exact h.elim
  | jobj fs => exact h.elim
  | jstr s => simp [pyDictGet, jget, List.lookup]
  | jnull => rfl
  | jbool b => rfl
  | jnum q => rfl

/-- Comparing a numeric or boolean value against a number never raises. -/
lemma pyLt_num_total (v : JVal) (q : ℚ)
    (h : (∃ x, v = JVal.jnum x) ∨ (∃ b, v = JVal.jbool b)) :
    ∃ r, pyLt v (JVal.jnum q) = Except.ok r := by
  rcases h with ⟨x, rfl⟩ | ⟨b, rfl⟩
  · exact ⟨_, rfl⟩
  · exact ⟨_, rfl⟩

/-- Team assignment against an empty team map always falls back to the
suggested team or `support` (for a hashable category). -/
lemma team_assignment_empty (t : Ticket)
    (h : ∀ v, t.category = some v → hashable v) :
    team_assignment (JVal.jobj []) t = Except.ok (suggested_or_support t) := by
  cases hc : t.category with
  | none => simp [team_assignment, hc]
  | some cv =>
    have hv := h cv hc
    have hm := pyMem_empty cv hv
    by_cases ht : cv.truthy
    · simp [team_assignment, hc, ht, hm, except_ok_bind]
    · simp [team_assignment, hc, ht]

/-- Auto-tag lookup against an empty `auto_tags` section yields no tags (for
a hashable value). -/
lemma tags_from_nil (key : String) (v : JVal) (h : hashable v) :
    tags_from [] key v = Except.ok [] := by
  have hm := pyMem_empty v h
  simp [tags_from, jget_nil, hm, except_ok_bind]

/-- The SLA key `ticket.priority or "medium"` is hashable whenever the
priority field is. -/
lemma prioKey_hashable (t : Ticket)
    (h : ∀ v, t.priority = some v → hashable v) : hashable (prioKey t) := by
  cases hp : t.priority with
  | none => simp [prioKey, hp, hashable]
  | some v =>
    have hv := h v hp
    by_cases ht : v.truthy
    · simpa [prioKey, hp, ht] using hv
    · simp [prioKey, hp, ht, hashable]

/-- With an absent, unparseable or falsy config document (so the parsed
config is the empty mapping), `_apply_routing_rules` succeeds and applies the
built-in defaults: team from the suggested team or `support`, no auto tags,
24-hour SLA, escalation threshold 0.5. -/
lemma apply_routing_rules_defaults (yload : String → Option JVal) (now : ℚ)
    (cfgText : Option String) (t : Ticket) (esc : Bool)
    (hcfg : parse_config yload cfgText = JVal.jobj [])
    (hcat : ∀ v, t.category = some v → hashable v)
    (hpri : ∀ v, t.priority = some v → hashable v)
    (hsent : ∀ v, t.sentiment = some v → hashable v)
    (hesc : pyLt (confOr0 t) (JVal.jnum (1 / 2)) = Except.ok esc) :
    apply_routing_rules yload now cfgText t = Except.ok
      (if esc then
        { t with
          assigned_team := some (suggested_or_support t),
          tags := some [JVal.jstr "auto-escalated"],
          sla_due_at := some (now + 24 * 3600),
          needs_human := some (JVal.jbool true),
          status := "escalated" }
      else
        { t with
          assigned_team := some (suggested_or_support t),
          tags := some [],
          sla_due_at := some (now + 24 * 3600) }) := by
  have hprioh : hashable (t.priority.getD JVal.jnull) := by
    cases hp : t.priority with
    | none => simp [hashable]
    | some v => simpa [hp] using hpri v hp
  have hsenth : hashable (t.sentiment.getD JVal.jnull) := by
    cases hp : t.sentiment with
    | none => simp [hashable]
    | some v => simpa [hp] using hsent v hp
  have hta := team_assignment_empty t hcat
  have htag1 := tags_from_nil "priority" _ hprioh
  have htag2 := tags_from_nil "sentiment" _ hsenth
  have hsla := pyDictGet_empty (prioKey t) (JVal.jnum 24) (prioKey_hashable t hpri)
  simp only [apply_routing_rules, hcfg, jget_nil, except_ok_bind, hta, htag1,
    htag2, hsla, hesc, pyNum]
  cases esc <;> simp

/-- Decoder fixture for the C8 counterexample: the document `hello` is valid
YAML and decodes to the string `hello` (a non-mapping). -/
def yloadScalar : String → Option JVal := fun s =>
  if s = "hello" then some (JVal.jstr "hello") else none

/-- C8 counterexample: a tenant config document that parses to a truthy
non-mapping (the YAML scalar `hello`) is not ignored: `config.get("routing",
...)` is an attribute access on a non-dict and raises `AttributeError`, which
is not of the caught type (`yaml.YAMLError`), so applying routing rules fails
the run. -/
theorem c8_counterexample :
    yloadScalar "hello" = some (JVal.jstr "hello") ∧
    apply_routing_rules yloadScalar 0 (some "hello") initTicket =
      Except.error "AttributeError" := by
  exact ⟨rfl, rfl⟩

/-- C8 (amended): a config document that is absent, empty, fails YAML
parsing, or parses to a falsy value is ignored: the parsed config is the
empty mapping and (for tickets whose classification fields hold hashable
values and an absent/numeric/falsy confidence) the rules apply with the
built-in defaults - assigned team from the suggested team or `support`,
SLA 24 hours, escalation threshold 0.5.  But a document parsing to a truthy
non-mapping, or one whose `routing` section is a truthy non-mapping, raises
`AttributeError` and fails the run: only `yaml.YAMLError` is caught. -/
theorem c8_routing_rules (yload : String → Option JVal) (now : ℚ)
    (cfgText : Option String) (t : Ticket) :
    (cfgText = none ∨ cfgText = some "" ∨
      (∃ txt, cfgText = some txt ∧ txt ≠ "" ∧ yload txt = none) ∨
      (∃ txt v, cfgText = some txt ∧ txt ≠ "" ∧ yload txt = some v ∧
        v.truthy = false) →
      parse_config yload cfgText = JVal.jobj []) ∧
    ((∀ fs, parse_config yload cfgText ≠ JVal.jobj fs) →
      apply_routing_rules yload now cfgText t = Except.error "AttributeError") ∧
    (∀ cfs, parse_config yload cfgText = JVal.jobj cfs →
      (∀ fs, jget cfs "routing" (JVal.jobj []) ≠ JVal.jobj fs) →
      apply_routing_rules yload now cfgText t = Except.error "AttributeError") ∧
    (parse_config yload cfgText = JVal.jobj [] →
      (∀ v, t.category = some v → hashable v) →
      (∀ v, t.priority = some v → hashable v) →
      (∀ v, t.sentiment = some v → hashable v) →
      (∀ v, t.classification_confidence = some v → v.truthy = false ∨
        (∃ x, v = JVal.jnum x) ∨ (∃ b, v = JVal.jbool b)) →
      ∃ t2 esc, apply_routing_rules yload now cfgText t = Except.ok t2 ∧
        pyLt (confOr0 t) (JVal.jnum (1 / 2)) = Except.ok esc ∧
        t2.assigned_team = some (suggested_or_support t) ∧
        t2.sla_due_at = some (now + 24 * 3600) ∧
        (esc = true → t2.status = "escalated" ∧
          t2.needs_human = some (JVal.jbool true) ∧
          t2.tags = some [JVal.jstr "auto-escalated"]) ∧
        (esc = false → t2.status = t.status ∧ t2.tags = some [])) := by
  refine ⟨?_, ?_, ?_, ?_⟩
  · rintro (rfl | rfl | ⟨txt, rfl, hne, hl⟩ | ⟨txt, v, rfl, hne, hl, hf⟩)
    · rfl
    · rfl
    · simp [parse_config, hne, hl]
    · simp [parse_config, hne, hl, hf]
  · intro hno
    cases hv : parse_config yload cfgText with
    | jobj cfs => exact absurd hv (hno cfs)
    | jnull => simp [apply_routing_rules, hv, except_error_bind]
    | jbool b => simp [apply_routing_rules, hv, except_error_bind]
    | jnum q => simp [apply_routing_rules, hv, except_error_bind]
    | jstr s => simp [apply_routing_rules, hv, except_error_bind]
    | jarr xs => simp [apply_routing_rules, hv, except_error_bind]
  · intro cfs hcfg hno
    cases hr : jget cfs "routing" (JVal.jobj []) with
    | jobj rfs => exact absurd hr (hno rfs)
    | jnull => simp [apply_routing_rules, hcfg, hr, except_ok_bind, except_error_bind]
    | jbool b => simp [apply_routing_rules, hcfg, hr, except_ok_bind, except_error_bind]
    | jnum q => simp [apply_routing_rules, hcfg, hr, except_ok_bind, except_error_bind]
    | jstr s => simp [apply_routing_rules, hcfg, hr, except_ok_bind, except_error_bind]
    | jarr xs => simp [apply_routing_rules, hcfg, hr, except_ok_bind, except_error_bind]
  · intro hcfg hcat hpri hsent hconf
    have hnum : (∃ x, confOr0 t = JVal.jnum x) ∨ (∃ b, confOr0 t = JVal.jbool b) := by
      cases hc : t.classification_confidence with
      | none => exact Or.inl ⟨0, by simp [confOr0, hc]⟩
      | some v =>
        rcases hconf v hc with hf | ⟨x, rfl⟩ | ⟨b, rfl⟩
        · exact Or.inl ⟨0, by simp [confOr0, hc, hf]⟩
        · by_cases ht : (JVal.jnum x).truthy
          · exact Or.inl ⟨x, by simp [confOr0, hc, ht]⟩
          · exact Or.inl ⟨0, by simp [confOr0, hc, ht]⟩
        · by_cases ht : (JVal.jbool b).truthy
          · exact Or.inr ⟨b, by simp [confOr0, hc, ht]⟩
          · exact Or.inl ⟨0, by simp [confOr0, hc, ht]⟩
    obtain ⟨esc, hesc⟩ := pyLt_num_total (confOr0 t) (1 / 2) hnum
    refine ⟨_, esc,
      apply_routing_rules_defaults yload now cfgText t esc hcfg hcat hpri
        hsent hesc, hesc, ?_, ?_, ?_, ?_⟩ <;> cases esc <;> simp

/-- Witness instantiating `c8_routing_rules`: an unparseable config document
degrades to the defaults on a fresh ticket (which escalates, since the
absent confidence reads as 0 < 0.5). -/
theorem c8_routing_rules_witness :
    ∃ t2 esc, apply_routing_rules (fun _ => none) 0 (some "routing: [oops")
        initTicket = Except.ok t2 ∧
      pyLt (confOr0 initTicket) (JVal.jnum (1 / 2)) = Except.ok esc ∧
      t2.assigned_team = some (suggested_or_support initTicket) ∧
      t2.sla_due_at = some (0 + 24 * 3600) ∧
      (esc = true → t2.status = "escalated" ∧
        t2.needs_human = some (JVal.jbool true) ∧
        t2.tags = some [JVal.jstr "auto-escalated"]) ∧
      (esc = false → t2.status = initTicket.status ∧ t2.tags = some []) :=
  (c8_routing_rules (fun _ => none) 0 (some "routing: [oops") initTicket).2.2.2
    rfl (fun v h => by cases h) (fun v h => by cases h) (fun v h => by cases h)
    (fun v h => by cases h)
